import Mathlib

/-!
Verification of the perovskite distortion analysis code: octahedral tilting
angles (`oct_distortions/oct_distortions.py`) and A-cation rotations
(`rotations.py`).

External collaborators (pymatgen / ASE / numpy geometry primitives and the
process-global random stream) are modelled as explicit oracle parameters;
the control flow, arithmetic and error behaviour of the repository code is
embedded directly.  Floating-point numbers are modelled by rationals; the
IEEE NaN produced by `np.mean([])` is modelled by `Option.none`.  Python
exceptions (`assert`, `NameError`, `IndexError`, `ValueError`) are modelled
by `Except.error` carrying the message.  `print` diagnostics emitted inside
the tilting loop are collected in an explicit log list.
-/

/-- A 3-vector of rationals (Cartesian site coordinates). -/
abbrev Vec3 := Rat × Rat × Rat

/-- One site of a pymatgen `Structure`: species label (`site.species_string`),
Cartesian coordinates (`site.coords`), atomic weight (`site.species.weight`). -/
structure Site where
  species : String
  coords : Vec3
  weight : Rat
  deriving DecidableEq

/-- A pymatgen `Structure`: an ordered list of sites; the list position is the
site index, the sole identity key used by the repository code. -/
structure Structure where
  sites : List Site
  deriving DecidableEq

/-- External geometry primitives used by `get_tilting_angles`, modelled as
oracles (they are pymatgen / ASE library calls, out of scope of this
repository):
* `get_distance i j` — `struct.get_distance(i, j)`, minimum-image distance;
* `get_neighbors i r` — `struct.get_neighbors(struct[i], r)`: for every
  periodic neighbor within radius `r`, its site index and species string
  (the same index may occur several times, once per periodic image);
* `crystal_nn r i` — `CrystalNN(search_cutoff=r).get_nn_data(struct, i)
  .all_nninfo`: site index and species string of each candidate neighbor;
* `ase_get_angle i j k` — `atoms.get_angle(i, j, k, mic=True)`, the
  minimum-image angle at vertex `j`, in degrees. -/
structure Geometry where
  get_distance : Nat → Nat → Rat
  get_neighbors : Nat → Rat → List (Nat × String)
  crystal_nn : Rat → Nat → List (Nat × String)
  ase_get_angle : Nat → Nat → Nat → Rat

/-- The keyword parameters of `get_tilting_angles` (the `verbose` flag only
controls a final `print` of the full angle list and has no effect on the
returned value, so it is not part of the embedded state). -/
structure TiltParams where
  b_cation : String
  x_anion : String
  distance_between_b_cations : Rat
  distance_between_b_x : Rat
  algorithm : String

/-- Python `round(x, 3)`.  Python rounds floats half-to-even; the only
difference with the half-up rounding used here is at exact half-ties of the
fourth decimal, which no claim exercises. -/
def round3 (q : Rat) : Rat := ((round (q * 1000) : Int) : Rat) / 1000

/-- `np.mean` of a list: the arithmetic mean, except that `np.mean([])`
yields the floating NaN (with a runtime warning), modelled as `none`. -/
def np_mean (l : List Rat) : Option Rat :=
  if l.isEmpty then none else some (l.sum / (l.length : Rat))

/-- The message of the failed coordination assertion, from
`assert len(...) == 6` in `get_tilting_angles` (an f-string naming the
offending count and the two species labels). -/
def assert_msg (p : TiltParams) (n : Nat) : String :=
  "I find " ++ toString n ++ " " ++ p.x_anion ++ " surrounding the " ++
    p.b_cation ++ ". This number should be 6!"

/-- The diagnostic printed for a B pair with no shared anion
(`print(f"No common ... between the ...")`). -/
def no_common_msg (p : TiltParams) : String :=
  "No common " ++ p.x_anion ++ " between the " ++ p.b_cation

/-- The `NameError` raised at the first use of `x_neighbors_of_b_1` when
`algorithm` is neither recognized value (the variable is never assigned). -/
def name_error_msg : String :=
  "NameError: name x_neighbors_of_b_1 is not defined"

/-- `b_sites = [index for index, site in enumerate(struct) if
site.species_string == b_cation]`. -/
def b_site_indexes (s : Structure) (b_cation : String) : List Nat :=
  ((s.sites.enum).filter (fun q => q.2.species = b_cation)).map (fun q => q.1)

/-- The coordination resolver inside the loop: the two list comprehensions
filtering `get_neighbors` / `CrystalNN` output by the anion species.  If
`algorithm` is neither recognized string, the Python variables
`x_neighbors_of_b_1/2` are never assigned and the subsequent `assert` line
raises `NameError`; the error is modelled at resolution point (observably
equivalent: the call aborts with that error and nothing is appended). -/
def x_neighbors_of (g : Geometry) (p : TiltParams) (b : Nat) : Except String (List Nat) :=
  if p.algorithm = "neighbors" then
    Except.ok (((g.get_neighbors b p.distance_between_b_x).filter
      (fun q => q.2 = p.x_anion)).map (fun q => q.1))
  else if p.algorithm = "crystal_nn" then
    Except.ok (((g.crystal_nn p.distance_between_b_x b).filter
      (fun q => q.2 = p.x_anion)).map (fun q => q.1))
  else
    Except.error name_error_msg

/-- `common_x_anions = list(set(x_neighbors_of_b_1).intersection(x_neighbors_of_b_2))`.
CPython leaves the iteration order of the resulting set unspecified; it is
modelled as first-occurrence order of the left list.  The set conversion
deduplicates repeated periodic-image indices. -/
def common_anions (x1 x2 : List Nat) : List Nat :=
  x1.dedup.filter (fun i => i ∈ x2)

/-- The inner `for b_site_2 in b_sites_copy:` loop of `get_tilting_angles`
for a fixed `b_site_1`, over the remaining candidates, threading the
accumulated angle list and the printed-diagnostics log.  A pair at distance
at or above the cutoff is skipped; an empty intersection prints the
diagnostic and `break`s (the remaining candidates are discarded and the
accumulator is returned unchanged); a coordination list whose length is not
6 raises the assertion; otherwise one rounded ASE angle per common anion is
appended. -/
def inner_loop (g : Geometry) (p : TiltParams) (b1 : Nat) :
    List Nat → List Rat → List String → Except String (List Rat × List String)
  | [], acc, log => Except.ok (acc, log)
  | b2 :: rest, acc, log =>
    if g.get_distance b1 b2 < p.distance_between_b_cations then
      match x_neighbors_of g p b1, x_neighbors_of g p b2 with
      | Except.ok x1, Except.ok x2 =>
        if x1.length = 6 then
          if x2.length = 6 then
            if (common_anions x1 x2).isEmpty then
              Except.ok (acc, log ++ [no_common_msg p])
            else
              inner_loop g p b1 rest
                (acc ++ (common_anions x1 x2).map
                  (fun x => round3 (g.ase_get_angle b1 x b2))) log
          else Except.error (assert_msg p x2.length)
        else Except.error (assert_msg p x1.length)
      | Except.error e, _ => Except.error e
      | _, Except.error e => Except.error e
    else inner_loop g p b1 rest acc log

/-- The outer `for b_site_1 in b_sites_copy:` loop.  CPython iterates by an
internal cursor over the very list that `b_sites_copy.remove(b_site_1)`
mutates, so the loop state is the current list `L` and the cursor `i`; each
step reads `L[i]`, removes the first occurrence of that value and runs the
inner loop over the shrunk list, then advances the cursor.  `fuel` bounds
the number of outer iterations: each iteration shortens the list by one
while `i` grows by one, so the exit test `i < len(L)` fails after at most
`⌈n/2⌉` iterations and the initial fuel `n + 1` is never exhausted
(`pair_loop_fuel_stable` below makes this precise). -/
def pair_loop (g : Geometry) (p : TiltParams) :
    Nat → List Nat → Nat → List Rat → List String → Except String (List Rat × List String)
  | 0, _, _, acc, log => Except.ok (acc, log)
  | fuel + 1, L, i, acc, log =>
    if h : i < L.length then
      match inner_loop g p (L[i]) (L.erase (L[i])) acc log with
      | Except.error e => Except.error e
      | Except.ok al => pair_loop g p fuel (L.erase (L[i])) (i + 1) al.1 al.2
    else Except.ok (acc, log)

/-- `get_tilting_angles` (`oct_distortions.py`, lines 13-84): collect the
B-site indices, run the pair loop, and return
`round(np.mean(angles_b_x_b), 3)` — `none` standing for the NaN that
`np.mean` produces on an empty list and that `round` propagates. -/
def get_tilting_angles (s : Structure) (g : Geometry) (p : TiltParams) :
    Except String (Option Rat) :=
  match pair_loop g p ((b_site_indexes s p.b_cation).length + 1)
      (b_site_indexes s p.b_cation) 0 [] [] with
  | Except.error e => Except.error e
  | Except.ok al => Except.ok ((np_mean al.1).map round3)

/-- Companion of `inner_loop` written against the specification wording of
the angle pipeline: identical control flow, but it collects the raw
(unrounded) ASE angles.  Used only to state and prove the rounding claim:
the implementation's angle list is the `round3` image of this list. -/
def raw_inner_loop (g : Geometry) (p : TiltParams) (b1 : Nat) :
    List Nat → List Rat → List String → Except String (List Rat × List String)
  | [], acc, log => Except.ok (acc, log)
  | b2 :: rest, acc, log =>
    if g.get_distance b1 b2 < p.distance_between_b_cations then
      match x_neighbors_of g p b1, x_neighbors_of g p b2 with
      | Except.ok x1, Except.ok x2 =>
        if x1.length = 6 then
          if x2.length = 6 then
            if (common_anions x1 x2).isEmpty then
              Except.ok (acc, log ++ [no_common_msg p])
            else
              raw_inner_loop g p b1 rest
                (acc ++ (common_anions x1 x2).map
                  (fun x => g.ase_get_angle b1 x b2)) log
          else Except.error (assert_msg p x2.length)
        else Except.error (assert_msg p x1.length)
      | Except.error e, _ => Except.error e
      | _, Except.error e => Except.error e
    else raw_inner_loop g p b1 rest acc log

/-- Companion of `pair_loop` collecting the raw (unrounded) angles. -/
def raw_pair_loop (g : Geometry) (p : TiltParams) :
    Nat → List Nat → Nat → List Rat → List String → Except String (List Rat × List String)
  | 0, _, _, acc, log => Except.ok (acc, log)
  | fuel + 1, L, i, acc, log =>
    if h : i < L.length then
      match raw_inner_loop g p (L[i]) (L.erase (L[i])) acc log with
      | Except.error e => Except.error e
      | Except.ok al => raw_pair_loop g p fuel (L.erase (L[i])) (i + 1) al.1 al.2
    else Except.ok (acc, log)

/-- The raw-angle run of the whole call (same B sites, same fuel). -/
def raw_angles (s : Structure) (g : Geometry) (p : TiltParams) :
    Except String (List Rat × List String) :=
  raw_pair_loop g p ((b_site_indexes s p.b_cation).length + 1)
    (b_site_indexes s p.b_cation) 0 [] []

/-! ## rotations.py -/

/-- Componentwise vector addition (numpy `+=` on a length-3 array). -/
def vadd (a b : Vec3) : Vec3 := (a.1 + b.1, a.2.1 + b.2.1, a.2.2 + b.2.2)

/-- Scalar multiple of a vector (numpy `coords * wt`). -/
def vsmul (c : Rat) (a : Vec3) : Vec3 := (c * a.1, c * a.2.1, c * a.2.2)

/-- Componentwise division by a scalar (numpy `center / total_weight`).
Rational division by zero yields `0` where numpy would produce non-raising
NaN/inf values with a warning; in both semantics no exception is raised and
no claim depends on the resulting garbage value. -/
def vdiv (a : Vec3) (c : Rat) : Vec3 := (a.1 / c, a.2.1 / c, a.2.2 / c)

/-- Python `IndexError` message for `structure[index]` out of range. -/
def index_error_msg : String := "IndexError: list index out of range"

/-- Python `ValueError` raised by `random.randrange(a, b)` when `a >= b`. -/
def value_error_msg : String := "ValueError: empty range for randrange"

/-- Python `AssertionError` of a bare `assert` (no message argument). -/
def assertion_error_msg : String := "AssertionError"

/-- The accumulation loop of `get_center_of_mass`:
`center += site.coords * wt; total_weight += wt` over the listed indices,
with `structure[index]` raising `IndexError` when out of range. -/
def com_fold (s : Structure) : List Nat → Vec3 → Rat → Except String (Vec3 × Rat)
  | [], center, total => Except.ok (center, total)
  | index :: rest, center, total =>
    match s.sites[index]? with
    | none => Except.error index_error_msg
    | some site =>
      com_fold s rest (vadd center (vsmul site.weight site.coords)) (total + site.weight)

/-- `get_center_of_mass` (`rotations.py`, lines 7-21): mass-weighted mean of
the listed site positions, `center / total_weight`. -/
def get_center_of_mass (s : Structure) (sites_indexes : List Nat) : Except String Vec3 :=
  (com_fold s sites_indexes (0, 0, 0) 0).map (fun ct => vdiv ct.1 ct.2)

/-- `fa_molecules` as built by `get_a_cation_sites` (lines 37-47): for every
site of the marker species, in structure order, the group
`[marker_index] + [site.index for site in neighbors]`, where the neighbor
search `struct.get_neighbors(carbon, r=radius_cutoff)` is the external
pymatgen primitive, modelled as the oracle argument `get_neighbors`.  The
`print` of the neighbor species is a pure diagnostic and is not modelled. -/
def fa_molecules_of (s : Structure) (get_neighbors : Nat → Rat → List Nat)
    (a_cation_center_species : String) (radius_cutoff : Rat) : List (List Nat) :=
  (s.sites.enum.filter (fun q => q.2.species = a_cation_center_species)).map
    (fun q => q.1 :: get_neighbors q.1 radius_cutoff)

/-- `get_a_cation_sites` (lines 23-49): build the molecular groups, then
`assert len(set([len(molecule) for molecule in fa_molecules])) == 1`. -/
def get_a_cation_sites (s : Structure) (get_neighbors : Nat → Rat → List Nat)
    (a_cation_center_species : String) (radius_cutoff : Rat) :
    Except String (List (List Nat)) :=
  if ((fa_molecules_of s get_neighbors a_cation_center_species radius_cutoff).map
      List.length).dedup.length = 1 then
    Except.ok (fa_molecules_of s get_neighbors a_cation_center_species radius_cutoff)
  else Except.error assertion_error_msg

/-- External randomized/geometric primitives used by `rotate_a_cation`:
* `perturb_disp i` — the random unit displacement direction drawn for site
  `i` by `Structure.perturb` (pymatgen);
* `rotate_point angle axis anchor point` — the point obtained by pymatgen's
  `rotate_sites` rotating `point` about `axis` through `anchor` by
  `theta = angle * pi / 180`; since `pi` is irrational the oracle takes the
  drawn integer angle in degrees and the conversion is part of the modelled
  external primitive;
* `randint k` — the `k`-th draw of the process-global `random` stream
  consumed by `random.randrange`. -/
structure RotOracles where
  perturb_disp : Nat → Vec3
  rotate_point : Int → Vec3 → Vec3 → Vec3 → Vec3
  randint : Nat → Nat

/-- `struct_rotated.perturb(distance=0.000001)`: every site is displaced by
`distance` times its random unit direction (pymatgen `Structure.perturb`). -/
def perturb (o : RotOracles) (distance : Rat) (s : Structure) : Structure :=
  Structure.mk (s.sites.enum.map
    (fun q => Site.mk q.2.species (vadd q.2.coords (vsmul distance (o.perturb_disp q.1)))
      q.2.weight))

/-- pymatgen `Structure.rotate_sites(indices, theta, axis, anchor,
to_unit_cell=False)`: each listed site is moved by the rotation, without
wrapping back into the cell; a listed index out of range raises
`IndexError`. -/
def rotate_sites (o : RotOracles) (s : Structure) (indices : List Nat)
    (angle : Int) (axis anchor : Vec3) : Except String Structure :=
  if indices.all (fun i => i < s.sites.length) then
    Except.ok (Structure.mk (s.sites.enum.map
      (fun q => if q.1 ∈ indices then
          Site.mk q.2.species (o.rotate_point angle axis anchor q.2.coords) q.2.weight
        else q.2)))
  else Except.error index_error_msg

/-- `random.randrange(a, b)` fed by one draw `r` of the random stream:
some integer in `[a, b)` when the range is nonempty, `ValueError` when
`a >= b` (so `randrange(-0, 0)` raises). -/
def randrange (a b : Int) (r : Nat) : Except String Int :=
  if a < b then Except.ok (a + (r : Int) % (b - a))
  else Except.error value_error_msg

/-- A heap of Python objects of type `Structure`: object identity is the
cell index.  Used to state that `rotate_a_cation` mutates only the fresh
deep copy and returns an object distinct from its argument. -/
structure Heap where
  objs : List Structure
  deriving DecidableEq

/-- Dereference a heap cell (the default is never reached on valid refs). -/
def Heap.readD (h : Heap) (r : Nat) : Structure :=
  (h.objs[r]?).getD (Structure.mk [])

/-- In-place mutation of an existing object. -/
def Heap.write (h : Heap) (r : Nat) (s : Structure) : Heap :=
  Heap.mk (h.objs.set r s)

/-- Allocation of a fresh object; returns the new heap and the fresh ref. -/
def Heap.alloc (h : Heap) (s : Structure) : Heap × Nat :=
  (Heap.mk (h.objs ++ [s]), h.objs.length)

/-- `copy.deepcopy` of a structure: an equal value; the fresh object is the
cell allocated for it at the call site. -/
def deepcopy (s : Structure) : Structure := s

/-- The `for sites in fa_molecules:` loop of `rotate_a_cation`: draw a
random angle, compute the center of mass of the group on the current state
of the copy, and rotate the group's sites in place (mutating only the cell
`ref` that holds the copy).  `k` counts the consumed random draws. -/
def rotate_loop (o : RotOracles) (maximum_angle : Int) (rotation_axis : Vec3) :
    List (List Nat) → Nat → Heap → Nat → Heap × Except String Unit
  | [], _, h, _ => (h, Except.ok ())
  | sites :: rest, k, h, ref =>
    match randrange (-maximum_angle) maximum_angle (o.randint k) with
    | Except.error e => (h, Except.error e)
    | Except.ok angle =>
      match get_center_of_mass (h.readD ref) sites with
      | Except.error e => (h, Except.error e)
      | Except.ok center_of_mass =>
        match rotate_sites o (h.readD ref) sites angle rotation_axis center_of_mass with
        | Except.error e => (h, Except.error e)
        | Except.ok st2 => rotate_loop o maximum_angle rotation_axis rest (k + 1)
            (h.write ref st2) ref

/-- Lines 69-72 of `rotations.py`:
`struct_rotated = deepcopy(struct)` followed by
`struct_rotated.perturb(distance=0.000001)` — allocate a fresh object for
the deep copy and perturb it in place; returns the heap and the copy's
reference. -/
def make_rotated_copy (o : RotOracles) (h : Heap) (struct_ref : Nat) : Heap × Nat :=
  match h.alloc (deepcopy (h.readD struct_ref)) with
  | (h1, rotated_ref) =>
    (h1.write rotated_ref (perturb o (1 / 1000000) (h1.readD rotated_ref)), rotated_ref)

/-- `rotate_a_cation` (`rotations.py`, lines 51-84): deep-copy the input
structure into a fresh object, perturb the copy in place by 1e-6, rotate
each molecular group of the copy in place, and return the copy's reference.
The caller's object `struct_ref` is never written. -/
def rotate_a_cation (o : RotOracles) (h : Heap) (struct_ref : Nat)
    (fa_molecules : List (List Nat)) (maximum_angle : Int) (rotation_axis : Vec3) :
    Heap × Except String Nat :=
  match rotate_loop o maximum_angle rotation_axis fa_molecules 0
      (make_rotated_copy o h struct_ref).1 (make_rotated_copy o h struct_ref).2 with
  | (h3, Except.ok _) => (h3, Except.ok (make_rotated_copy o h struct_ref).2)
  | (h3, Except.error e) => (h3, Except.error e)

/-! ## Concrete instances used by counterexamples and witnesses -/

/-- A lead site (as in a perovskite B sublattice). -/
def site_pb : Site := Site.mk "Pb" (0, 0, 0) 207

/-- An iodine site. -/
def site_i : Site := Site.mk "I" (0, 0, 0) 127

/-- A structure with four B-cation sites (indices 0-3), the smallest pool on
which the outer loop's remove-while-iterating slip skips a pair. -/
def s_four_b : Structure := Structure.mk [site_pb, site_pb, site_pb, site_pb]

/-- A structure with two B-cation sites. -/
def s_two_b : Structure := Structure.mk [site_pb, site_pb]

/-- A structure with no B-cation site and no marker carbon. -/
def s_no_b : Structure := Structure.mk [site_i]

/-- Parameters with integer cutoffs (so that comparisons reduce). -/
def params0 : TiltParams := TiltParams.mk "Pb" "I" 2 2 "neighbors"

/-- Geometry for the pair-enumeration bug: every distance is 1 (below the
cutoff 2), every B site sees the same six iodine neighbors 10-15, and the
angle at a pair `(b1, b2)` is the code `10 * b1 + b2` so that the produced
angle list identifies exactly which pairs were visited. -/
def g_enum : Geometry :=
  Geometry.mk (fun _ _ => 1) (fun _ _ =>
      [(10, "I"), (11, "I"), (12, "I"), (13, "I"), (14, "I"), (15, "I")])
    (fun _ _ => []) (fun b1 _ b2 => ((10 * b1 + b2 : Nat) : Rat))

/-- The pair codes `10 * b1 + b2` of the angles produced by `g_enum` on the
four-site pool: pairs (0,1), (0,2), (0,3), (2,1), (2,3), six shared anions
each.  Codes 13 and 31 (the qualifying pair of sites 1 and 3) are absent. -/
def pair_codes : List Nat :=
  [1, 1, 1, 1, 1, 1, 2, 2, 2, 2, 2, 2, 3, 3, 3, 3, 3, 3,
   21, 21, 21, 21, 21, 21, 23, 23, 23, 23, 23, 23]

/-- Geometry in which sites 0 and 1 have disjoint six-fold coordinations
(no shared anion): site 0 sees anions 10-15, every other site sees 20-25. -/
def g_disjoint : Geometry :=
  Geometry.mk (fun _ _ => 1)
    (fun b _ => if b = 0 then
        [(10, "I"), (11, "I"), (12, "I"), (13, "I"), (14, "I"), (15, "I")]
      else [(20, "I"), (21, "I"), (22, "I"), (23, "I"), (24, "I"), (25, "I")])
    (fun _ _ => []) (fun _ _ _ => 90)

/-- Geometry in which every B site has only five coordinating anions. -/
def g_five : Geometry :=
  Geometry.mk (fun _ _ => 1)
    (fun _ _ => [(10, "I"), (11, "I"), (12, "I"), (13, "I"), (14, "I")])
    (fun _ _ => []) (fun _ _ _ => 90)

/-- Trivial geometry (never consulted on structures without B sites). -/
def g_trivial : Geometry :=
  Geometry.mk (fun _ _ => 0) (fun _ _ => []) (fun _ _ => []) (fun _ _ _ => 0)

/-- Trivial neighbor oracle for the A-cation locator. -/
def gn_empty : Nat → Rat → List Nat := fun _ _ => []

/-- Neighbor oracle giving every marker four neighbors 1-4. -/
def gn_four : Nat → Rat → List Nat := fun _ _ => [1, 2, 3, 4]

/-- A five-site structure whose site 0 is a marker carbon. -/
def s_one_c : Structure :=
  Structure.mk [Site.mk "C" (0, 0, 0) 12, site_i, site_i, site_i, site_i]

/-- Trivial rotation oracles: no perturbation direction, identity rotation,
constant random stream. -/
def o_id : RotOracles :=
  RotOracles.mk (fun _ => (0, 0, 0)) (fun _ _ _ point => point) (fun _ => 0)

/-- A one-object heap holding the five-site marker structure. -/
def h_one : Heap := Heap.mk [s_one_c]

/-! ## Helper lemmas -/

/-- `round3` fixes integers (used to read off integer-coded angle lists). -/
theorem round3_natCast (n : Nat) : round3 ((n : Nat) : Rat) = ((n : Nat) : Rat) := by
  unfold round3
  rw [show ((n : Rat) * 1000) = (((n * 1000 : Nat) : Nat) : Rat) by push_cast; ring]
  rw [round_natCast]
  push_cast
  field_simp

/-- One-step unfolding of `pair_loop` at positive fuel. -/
theorem pair_loop_succ (g : Geometry) (p : TiltParams) (fuel : Nat) (L : List Nat)
    (i : Nat) (acc : List Rat) (log : List String) :
    pair_loop g p (fuel + 1) L i acc log =
      if h : i < L.length then
        match inner_loop g p (L[i]) (L.erase (L[i])) acc log with
        | Except.error e => Except.error e
        | Except.ok al => pair_loop g p fuel (L.erase (L[i])) (i + 1) al.1 al.2
      else Except.ok (acc, log) := rfl

/-- One-step unfolding of `raw_pair_loop` at positive fuel. -/
theorem raw_pair_loop_succ (g : Geometry) (p : TiltParams) (fuel : Nat) (L : List Nat)
    (i : Nat) (acc : List Rat) (log : List String) :
    raw_pair_loop g p (fuel + 1) L i acc log =
      if h : i < L.length then
        match raw_inner_loop g p (L[i]) (L.erase (L[i])) acc log with
        | Except.error e => Except.error e
        | Except.ok al => raw_pair_loop g p fuel (L.erase (L[i])) (i + 1) al.1 al.2
      else Except.ok (acc, log) := rfl

/-- Fuel sufficiency: once the fuel covers the remaining iterations
(`L.length ≤ i + fuel`), adding more fuel does not change the result, so
the `n + 1` fuel used by `get_tilting_angles` computes the limit value of
the Python loop. -/
theorem pair_loop_fuel_stable (g : Geometry) (p : TiltParams) :
    ∀ fuel L i acc log, L.length ≤ i + fuel →
      pair_loop g p (fuel + 1) L i acc log = pair_loop g p fuel L i acc log := by
  intro fuel
  induction fuel with
  | zero =>
    intro L i acc log hle
    have hni : ¬ i < L.length := by omega
    rw [pair_loop_succ]
    simp [pair_loop, hni]
  | succ f ih =>
    intro L i acc log hle
    rw [pair_loop_succ, pair_loop_succ]
    by_cases h : i < L.length
    · simp only [dif_pos h]
      cases hinner : inner_loop g p (L[i]) (L.erase (L[i])) acc log with
      | error e => rfl
      | ok al =>
        apply ih
        have hmem : L[i] ∈ L := List.getElem_mem h
        rw [List.length_erase_of_mem hmem]
        omega
    · simp only [dif_neg h]

/-! ## Claims about the tilting-angle engine -/

/-- C1: the pair enumeration of `get_tilting_angles` does NOT visit every
qualifying unordered pair.  On a pool of four B sites (all pairwise below
the cutoff: conjunct 2 checks the pair of sites 1 and 3 qualifies), the
remove-while-iterating loop visits exactly the pairs (0,1), (0,2), (0,3),
(2,1), (2,3) — the produced angle list carries the code `10*b1+b2` of each
visited pair, six shared anions each — and the qualifying pair of sites
1 and 3 (codes 13/31) is never visited: after removing site 0 the cursor
lands on site 2, so site 1 is never a `b_site_1`, and site 3 is removed
from its reach. -/
theorem c1_pair_enumeration_skips_a_pair :
    b_site_indexes s_four_b "Pb" = [0, 1, 2, 3] ∧
    g_enum.get_distance 1 3 < params0.distance_between_b_cations ∧
    pair_loop g_enum params0 5 [0, 1, 2, 3] 0 [] [] =
      Except.ok (pair_codes.map (fun n => ((n : Nat) : Rat)), []) ∧
    13 ∉ pair_codes ∧ 31 ∉ pair_codes := by
  refine ⟨rfl, by decide, ?_, by decide, by decide⟩
  have h : pair_loop g_enum params0 5 [0, 1, 2, 3] 0 [] [] =
      Except.ok (pair_codes.map (fun n => round3 ((n : Nat) : Rat)), []) := rfl
  rw [h]
  simp [round3_natCast]

/-- C2: a within-cutoff pair whose coordination sets have empty
intersection makes the inner loop print the diagnostic and return the
accumulator unchanged without an error, discarding every remaining `b2`
candidate (the conclusion does not depend on `rest`), after which the outer
loop continues with the next `b1` of the shrunk pool. -/
theorem c2_no_common_anion_breaks_inner_loop
    (g : Geometry) (p : TiltParams) (b1 b2 : Nat) (rest : List Nat)
    (acc : List Rat) (log : List String) (L : List Nat) (i fuel : Nat)
    (x1 x2 : List Nat)
    (hL : i < L.length) (hb1 : L[i] = b1) (herase : L.erase b1 = b2 :: rest)
    (hdist : g.get_distance b1 b2 < p.distance_between_b_cations)
    (hx1 : x_neighbors_of g p b1 = Except.ok x1)
    (hx2 : x_neighbors_of g p b2 = Except.ok x2)
    (h6a : x1.length = 6) (h6b : x2.length = 6)
    (hcom : common_anions x1 x2 = []) :
    inner_loop g p b1 (b2 :: rest) acc log =
      Except.ok (acc, log ++ [no_common_msg p]) ∧
    pair_loop g p (fuel + 1) L i acc log =
      pair_loop g p fuel (b2 :: rest) (i + 1) acc (log ++ [no_common_msg p]) := by
  have hinner : inner_loop g p b1 (b2 :: rest) acc log =
      Except.ok (acc, log ++ [no_common_msg p]) := by
    simp [inner_loop, hdist, hx1, hx2, h6a, h6b, hcom]
  refine ⟨hinner, ?_⟩
  rw [pair_loop_succ]
  rw [dif_pos hL]
  rw [hb1, herase, hinner]

/-- C3: once a within-cutoff pair is processed, a coordination list whose
length is not 6 (for either member, the first one checked first) raises the
assertion naming the offending count: the inner loop errors, the driving
outer loop errors, and — when the loop state is the start state of a call —
the whole `get_tilting_angles` call aborts with that message. -/
theorem c3_wrong_coordination_aborts
    (g : Geometry) (p : TiltParams) (b1 b2 : Nat) (rest : List Nat)
    (acc : List Rat) (log : List String) (L : List Nat) (i fuel : Nat)
    (x1 x2 : List Nat)
    (hL : i < L.length) (hb1 : L[i] = b1) (herase : L.erase b1 = b2 :: rest)
    (hdist : g.get_distance b1 b2 < p.distance_between_b_cations)
    (hx1 : x_neighbors_of g p b1 = Except.ok x1)
    (hx2 : x_neighbors_of g p b2 = Except.ok x2)
    (hne : x1.length ≠ 6 ∨ x2.length ≠ 6) :
    inner_loop g p b1 (b2 :: rest) acc log =
      Except.error (assert_msg p (if x1.length = 6 then x2.length else x1.length)) ∧
    pair_loop g p (fuel + 1) L i acc log =
      Except.error (assert_msg p (if x1.length = 6 then x2.length else x1.length)) ∧
    (∀ s, i = 0 → acc = [] → log = [] → fuel = L.length →
      b_site_indexes s p.b_cation = L →
      get_tilting_angles s g p =
        Except.error (assert_msg p (if x1.length = 6 then x2.length else x1.length))) := by
  have hinner : inner_loop g p b1 (b2 :: rest) acc log =
      Except.error (assert_msg p (if x1.length = 6 then x2.length else x1.length)) := by
    by_cases h6 : x1.length = 6
    · have h62 : x2.length ≠ 6 := hne.resolve_left (not_not_intro h6)
      simp [inner_loop, hdist, hx1, hx2, h6, h62]
    · simp [inner_loop, hdist, hx1, hx2, h6]
  have houter : pair_loop g p (fuel + 1) L i acc log =
      Except.error (assert_msg p (if x1.length = 6 then x2.length else x1.length)) := by
    rw [pair_loop_succ]
    rw [dif_pos hL]
    rw [hb1, herase, hinner]
  refine ⟨hinner, houter, ?_⟩
  intro s hi hacc hlog hfuel hbs
  subst hi
  subst hacc
  subst hlog
  subst hfuel
  unfold get_tilting_angles
  rw [hbs, houter]

/-- C4 counterexample: on a structure with no B site the call raises
nothing and returns the NaN of `np.mean([])` (modelled `none`) — it does
not handle the empty angle list explicitly. -/
theorem c4_counterexample :
    get_tilting_angles s_no_b g_trivial params0 = Except.ok none ∧
    np_mean [] = none :=
  ⟨rfl, rfl⟩

/-- C4 amended: whenever the pair loop of a call produces an empty angle
list, `get_tilting_angles` silently returns the NaN of `np.mean` of no
data, modelled `Except.ok none` — no error is raised and no designated
sentinel is substituted. -/
theorem c4_empty_angles_give_nan (s : Structure) (g : Geometry) (p : TiltParams)
    (log : List String)
    (hrun : pair_loop g p ((b_site_indexes s p.b_cation).length + 1)
      (b_site_indexes s p.b_cation) 0 [] [] = Except.ok ([], log)) :
    get_tilting_angles s g p = Except.ok none := by
  unfold get_tilting_angles
  rw [hrun]
  rfl

/-- Witness for C4: the amended theorem applied to the B-free structure. -/
theorem c4_witness :
    pair_loop g_trivial params0 ((b_site_indexes s_no_b "Pb").length + 1)
      (b_site_indexes s_no_b "Pb") 0 [] [] = Except.ok ([], []) ∧
    get_tilting_angles s_no_b g_trivial params0 = Except.ok none :=
  ⟨rfl, c4_empty_angles_give_nan s_no_b g_trivial params0 [] rfl⟩

/-- The inner loop computes the `round3` image of the raw-angle inner loop:
identical control flow and log, pointwise-rounded angle list. -/
theorem inner_loop_eq_raw (g : Geometry) (p : TiltParams) (b1 : Nat) :
    ∀ rest accR log, inner_loop g p b1 rest (accR.map round3) log =
      (raw_inner_loop g p b1 rest accR log).map (fun al => (al.1.map round3, al.2)) := by
  intro rest
  induction rest with
  | nil => intro accR log; rfl
  | cons b2 rest ih =>
    intro accR log
    simp only [inner_loop, raw_inner_loop]
    by_cases hd : g.get_distance b1 b2 < p.distance_between_b_cations
    · rw [if_pos hd, if_pos hd]
      cases hx1 : x_neighbors_of g p b1 with
      | error e =>
        cases hx2 : x_neighbors_of g p b2 with
        | error e2 => rfl
        | ok x2 => rfl
      | ok x1 =>
        cases hx2 : x_neighbors_of g p b2 with
        | error e2 => rfl
        | ok x2 =>
          dsimp only
          by_cases h61 : x1.length = 6
          · rw [if_pos h61, if_pos h61]
            by_cases h62 : x2.length = 6
            · rw [if_pos h62, if_pos h62]
              by_cases hce : (common_anions x1 x2).isEmpty
              · rw [if_pos hce, if_pos hce]
                rfl
              · rw [if_neg hce, if_neg hce]
                rw [show (accR.map round3) ++ (common_anions x1 x2).map
                      (fun x => round3 (g.ase_get_angle b1 x b2)) =
                    (accR ++ (common_anions x1 x2).map
                      (fun x => g.ase_get_angle b1 x b2)).map round3 by
                  simp [List.map_append, List.map_map, Function.comp]]
                exact ih _ _
            · rw [if_neg h62, if_neg h62]
              rfl
          · rw [if_neg h61, if_neg h61]
            rfl
    · rw [if_neg hd, if_neg hd]
      exact ih accR log

/-- The pair loop computes the `round3` image of the raw-angle pair loop. -/
theorem pair_loop_eq_raw (g : Geometry) (p : TiltParams) :
    ∀ fuel L i accR log, pair_loop g p fuel L i (accR.map round3) log =
      (raw_pair_loop g p fuel L i accR log).map (fun al => (al.1.map round3, al.2)) := by
  intro fuel
  induction fuel with
  | zero => intro L i accR log; rfl
  | succ f ih =>
    intro L i accR log
    rw [pair_loop_succ, raw_pair_loop_succ]
    by_cases h : i < L.length
    · simp only [dif_pos h]
      rw [inner_loop_eq_raw]
      cases hri : raw_inner_loop g p (L[i]) (L.erase (L[i])) accR log with
      | error e => rfl
      | ok al => exact ih (L.erase (L[i])) (i + 1) al.1 al.2
    · simp only [dif_neg h]
      rfl

/-- C5: every angle the call appends is the 3-decimal rounding of the raw
ASE angle (the angle list is the pointwise `round3` image of the raw-angle
run), and the returned value is the 3-decimal rounding of the arithmetic
mean of that rounded list. -/
theorem c5_angles_rounded (s : Structure) (g : Geometry) (p : TiltParams) :
    get_tilting_angles s g p =
      (raw_angles s g p).map (fun al => (np_mean (al.1.map round3)).map round3) := by
  unfold get_tilting_angles raw_angles
  have h := pair_loop_eq_raw g p ((b_site_indexes s p.b_cation).length + 1)
    (b_site_indexes s p.b_cation) 0 [] []
  simp only [List.map_nil] at h
  rw [h]
  cases raw_pair_loop g p ((b_site_indexes s p.b_cation).length + 1)
      (b_site_indexes s p.b_cation) 0 [] [] with
  | error e => rfl
  | ok al => rfl

/-- C9: the tilting pipeline is deterministic — it consumes no random
stream (unlike `rotate_a_cation`, whose embedding needs the `randint`
oracle), so two runs on the same unmodified structure with the same
parameters return the same result. -/
theorem c9_deterministic (s : Structure) (g : Geometry) (p : TiltParams)
    (r1 r2 : Except String (Option Rat))
    (h1 : r1 = get_tilting_angles s g p) (h2 : r2 = get_tilting_angles s g p) :
    r1 = r2 := h1.trans h2.symm

/-- Witness for C9: two runs on the B-free structure agree. -/
theorem c9_witness :
    get_tilting_angles s_no_b g_trivial params0 =
      get_tilting_angles s_no_b g_trivial params0 :=
  c9_deterministic s_no_b g_trivial params0 _ _ rfl rfl

/-- Witness for C2: a pool of two B sites whose coordinations are disjoint;
the inner loop logs the diagnostic and the outer loop moves on. -/
theorem c2_witness :
    g_disjoint.get_distance 0 1 < params0.distance_between_b_cations ∧
    common_anions [10, 11, 12, 13, 14, 15] [20, 21, 22, 23, 24, 25] = [] ∧
    inner_loop g_disjoint params0 0 [1] [] [] =
      Except.ok ([], [no_common_msg params0]) ∧
    pair_loop g_disjoint params0 2 [0, 1] 0 [] [] =
      pair_loop g_disjoint params0 1 [1] 1 [] [no_common_msg params0] := by
  refine ⟨by decide, rfl, ?_, ?_⟩
  · exact (c2_no_common_anion_breaks_inner_loop g_disjoint params0 0 1 [] [] [] [0, 1] 0 1
      [10, 11, 12, 13, 14, 15] [20, 21, 22, 23, 24, 25] (by decide) rfl rfl (by decide)
      rfl rfl rfl rfl rfl).1
  · exact (c2_no_common_anion_breaks_inner_loop g_disjoint params0 0 1 [] [] [] [0, 1] 0 1
      [10, 11, 12, 13, 14, 15] [20, 21, 22, 23, 24, 25] (by decide) rfl rfl (by decide)
      rfl rfl rfl rfl rfl).2

/-- Witness for C3: two B sites each with only five coordinating anions;
the whole call aborts with the assertion naming the count 5. -/
theorem c3_witness :
    x_neighbors_of g_five params0 0 = Except.ok [10, 11, 12, 13, 14] ∧
    (10 : Nat) ≠ 6 ∧
    get_tilting_angles s_two_b g_five params0 =
      Except.error (assert_msg params0 5) := by
  refine ⟨rfl, by decide, ?_⟩
  exact (c3_wrong_coordination_aborts g_five params0 0 1 [] [] [] [0, 1] 0 2
    [10, 11, 12, 13, 14] [10, 11, 12, 13, 14] (by decide) rfl rfl (by decide)
    rfl rfl (Or.inl (by decide))).2.2 s_two_b rfl rfl rfl rfl rfl

/-! ## Heap lemmas for the rotation frame properties -/

/-- Reading back the cell just written. -/
theorem Heap.readD_write_self (h : Heap) (r : Nat) (s : Structure)
    (hr : r < h.objs.length) : (h.write r s).readD r = s := by
  unfold Heap.write Heap.readD
  rw [List.getElem?_set_eq_of_lt s hr]
  rfl

/-- Writing one cell does not change another. -/
theorem Heap.readD_write_ne (h : Heap) (r1 r2 : Nat) (s : Structure)
    (hne : r1 ≠ r2) : (h.write r1 s).readD r2 = h.readD r2 := by
  unfold Heap.write Heap.readD
  rw [List.getElem?_set_ne hne]

/-- Allocation does not change existing cells. -/
theorem Heap.readD_alloc_old (h : Heap) (s : Structure) (r : Nat)
    (hr : r < h.objs.length) : ((h.alloc s).1).readD r = h.readD r := by
  unfold Heap.alloc Heap.readD
  rw [List.getElem?_append_left hr]

/-- Reading the freshly allocated cell. -/
theorem Heap.readD_alloc_fresh (h : Heap) (s : Structure) :
    ((h.alloc s).1).readD (h.objs.length) = s := by
  unfold Heap.alloc Heap.readD
  rw [List.getElem?_concat_length]
  rfl

/-- Writing preserves the number of objects. -/
theorem Heap.write_length (h : Heap) (r : Nat) (s : Structure) :
    (h.write r s).objs.length = h.objs.length := by
  unfold Heap.write
  exact List.length_set h.objs r s

/-- The reference of the rotated copy is the fresh cell. -/
theorem make_rotated_copy_ref (o : RotOracles) (h : Heap) (sref : Nat) :
    (make_rotated_copy o h sref).2 = h.objs.length := rfl

/-- Making the rotated copy grows the heap by one object. -/
theorem make_rotated_copy_len (o : RotOracles) (h : Heap) (sref : Nat) :
    (make_rotated_copy o h sref).1.objs.length = h.objs.length + 1 := by
  simp [make_rotated_copy, Heap.alloc, Heap.write, List.length_set]

/-- Making the rotated copy does not change any pre-existing object. -/
theorem make_rotated_copy_readD_old (o : RotOracles) (h : Heap) (sref r : Nat)
    (hr : r < h.objs.length) :
    (make_rotated_copy o h sref).1.readD r = h.readD r := by
  unfold make_rotated_copy Heap.alloc
  rw [Heap.readD_write_ne _ _ _ _ (by omega : h.objs.length ≠ r)]
  exact Heap.readD_alloc_old h _ r hr

/-- The content of the fresh cell after `make_rotated_copy`: the perturbed
deep copy of the input structure. -/
theorem make_rotated_copy_readD_fresh (o : RotOracles) (h : Heap) (sref : Nat) :
    (make_rotated_copy o h sref).1.readD (h.objs.length) =
      perturb o (1 / 1000000) (deepcopy (h.readD sref)) := by
  unfold make_rotated_copy Heap.alloc Heap.write Heap.readD
  dsimp only
  rw [List.getElem?_concat_length]
  rw [List.getElem?_set_eq_of_lt]
  · rfl
  · simp

/-- The rotation loop writes only the cell holding the copy: any other
object reads back unchanged. -/
theorem rotate_loop_frame (o : RotOracles) (ma : Int) (ax : Vec3) :
    ∀ fa k h ref r, r ≠ ref →
      ((rotate_loop o ma ax fa k h ref).1).readD r = h.readD r := by
  intro fa
  induction fa with
  | nil => intro k h ref r hne; rfl
  | cons sites rest ih =>
    intro k h ref r hne
    simp only [rotate_loop]
    cases hr : randrange (-ma) ma (o.randint k) with
    | error e => rfl
    | ok angle =>
      dsimp only
      cases hcom : get_center_of_mass (h.readD ref) sites with
      | error e => rfl
      | ok com =>
        dsimp only
        cases hrot : rotate_sites o (h.readD ref) sites angle ax com with
        | error e => rfl
        | ok st2 =>
          dsimp only
          rw [ih (k + 1) (h.write ref st2) ref r hne]
          exact Heap.readD_write_ne h ref r st2 (Ne.symm hne)

/-- C6: `rotate_a_cation` leaves the caller's structure object untouched —
after the call (whether it succeeds or raises) the input cell reads back
exactly its old value, and the returned reference (on success) is a
distinct object from the input. -/
theorem c6_caller_structure_untouched (o : RotOracles) (h : Heap) (struct_ref : Nat)
    (fa : List (List Nat)) (ma : Int) (ax : Vec3)
    (hs : struct_ref < h.objs.length) :
    ((rotate_a_cation o h struct_ref fa ma ax).1).readD struct_ref =
      h.readD struct_ref ∧
    (∀ r, (rotate_a_cation o h struct_ref fa ma ax).2 = Except.ok r →
      r ≠ struct_ref) := by
  have hne2 : struct_ref ≠ (make_rotated_copy o h struct_ref).2 := by
    rw [make_rotated_copy_ref]
    omega
  unfold rotate_a_cation
  rcases hloop : rotate_loop o ma ax fa 0 (make_rotated_copy o h struct_ref).1
      (make_rotated_copy o h struct_ref).2 with ⟨h3, res⟩
  have hframe : h3.readD struct_ref = h.readD struct_ref := by
    have hfr := rotate_loop_frame o ma ax fa 0 (make_rotated_copy o h struct_ref).1
      (make_rotated_copy o h struct_ref).2 struct_ref hne2
    rw [hloop] at hfr
    rw [show (h3, res).1 = h3 from rfl] at hfr
    rw [hfr]
    exact make_rotated_copy_readD_old o h struct_ref struct_ref hs
  constructor
  · cases res with
    | ok u => exact hframe
    | error e => exact hframe
  · intro r hr
    cases res with
    | error e => exact absurd hr (by simp)
    | ok u =>
      have : (make_rotated_copy o h struct_ref).2 = r := by
        simpa using hr
      rw [← this, make_rotated_copy_ref]
      omega

/-- Witness for C6: rotating one single-atom molecule of a one-object heap
leaves the input object unchanged and returns a different object. -/
theorem c6_witness :
    0 < h_one.objs.length ∧
    ((rotate_a_cation o_id h_one 0 [[0]] 180 (0, 1, 0)).1).readD 0 = h_one.readD 0 ∧
    (∀ r, (rotate_a_cation o_id h_one 0 [[0]] 180 (0, 1, 0)).2 = Except.ok r → r ≠ 0) :=
  ⟨by decide,
    (c6_caller_structure_untouched o_id h_one 0 [[0]] 180 (0, 1, 0) (by decide)).1,
    (c6_caller_structure_untouched o_id h_one 0 [[0]] 180 (0, 1, 0) (by decide)).2⟩

/-- The center-of-mass accumulation never raises when all indices are in
range. -/
theorem com_fold_ok (s : Structure) :
    ∀ idxs center total, (∀ i ∈ idxs, i < s.sites.length) →
      ∃ v, com_fold s idxs center total = Except.ok v := by
  intro idxs
  induction idxs with
  | nil => intro c t _; exact ⟨(c, t), rfl⟩
  | cons i rest ih =>
    intro c t hall
    have hi : i < s.sites.length := hall i (by simp)
    have hsome : s.sites[i]? = some (s.sites[i]) := List.getElem?_eq_getElem hi
    simp only [com_fold, hsome]
    exact ih _ _ (fun j hj => hall j (by simp [hj]))

/-- `get_center_of_mass` never raises when all indices are in range (a zero
total weight divides without raising, as numpy division does). -/
theorem get_center_of_mass_ok (s : Structure) (idxs : List Nat)
    (h : ∀ i ∈ idxs, i < s.sites.length) :
    ∃ v, get_center_of_mass s idxs = Except.ok v := by
  obtain ⟨v, hv⟩ := com_fold_ok s idxs (0, 0, 0) 0 h
  refine ⟨vdiv v.1 v.2, ?_⟩
  unfold get_center_of_mass
  rw [hv]
  rfl

/-- Perturbation does not change the number of sites. -/
theorem perturb_length (o : RotOracles) (d : Rat) (s : Structure) :
    (perturb o d s).sites.length = s.sites.length := by
  simp [perturb, List.enum_length]

/-- `rotate_sites` succeeds on in-range indices and preserves the number of
sites. -/
theorem rotate_sites_ok (o : RotOracles) (s : Structure) (idxs : List Nat)
    (a : Int) (ax anc : Vec3) (h : ∀ i ∈ idxs, i < s.sites.length) :
    ∃ s2, rotate_sites o s idxs a ax anc = Except.ok s2 ∧
      s2.sites.length = s.sites.length := by
  have hall : (idxs.all fun i => i < s.sites.length) = true := by
    simp only [List.all_eq_true, decide_eq_true_eq]
    exact h
  refine ⟨Structure.mk (s.sites.enum.map
      (fun q => if q.1 ∈ idxs then
          Site.mk q.2.species (o.rotate_point a ax anc q.2.coords) q.2.weight
        else q.2)), ?_, ?_⟩
  · unfold rotate_sites
    rw [if_pos hall]
  · simp [List.enum_length]

/-- The rotation loop completes without raising when the angle range is
nonempty and every group index is in range of the copy. -/
theorem rotate_loop_ok (o : RotOracles) (ma : Int) (ax : Vec3) (hma : 0 < ma) :
    ∀ fa k h ref, ref < h.objs.length →
      (∀ g ∈ fa, ∀ i ∈ g, i < ((h.readD ref).sites.length)) →
      ∃ h3, rotate_loop o ma ax fa k h ref = (h3, Except.ok ()) := by
  intro fa
  induction fa with
  | nil => intro k h ref _ _; exact ⟨h, rfl⟩
  | cons sites rest ih =>
    intro k h ref hr hb
    have hrr : randrange (-ma) ma (o.randint k) =
        Except.ok (-ma + (o.randint k : Int) % (ma - -ma)) := by
      unfold randrange
      rw [if_pos (by omega)]
    obtain ⟨com, hcom⟩ := get_center_of_mass_ok (h.readD ref) sites
      (fun i hi => hb sites (by simp) i hi)
    obtain ⟨st2, hrot, hlen⟩ := rotate_sites_ok o (h.readD ref) sites
      (-ma + (o.randint k : Int) % (ma - -ma)) ax com
      (fun i hi => hb sites (by simp) i hi)
    simp only [rotate_loop, hrr, hcom, hrot]
    exact ih (k + 1) (h.write ref st2) ref
      (by rw [Heap.write_length]; exact hr)
      (by intro g hg i hi
          rw [Heap.readD_write_self h ref st2 hr, hlen]
          exact hb g (by simp [hg]) i hi)

/-- C7 counterexample: with `maximum_angle = 0` and one (perfectly
well-formed, in-range) group, the call raises `ValueError` from
`random.randrange(-0, 0)` — a failure mode not caused by malformed groups. -/
theorem c7_counterexample :
    (rotate_a_cation o_id h_one 0 [[0]] 0 (0, 1, 0)).2 =
      Except.error value_error_msg := rfl

/-- C7 amended: for every structure, every group list whose indices are all
in range, every rotation axis and every POSITIVE `maximum_angle`, the call
completes and returns the rotated copy without raising; `maximum_angle ≤ 0`
with at least one group raises `ValueError` (see the counterexample). -/
theorem c7_in_range_groups_complete (o : RotOracles) (h : Heap) (struct_ref : Nat)
    (fa : List (List Nat)) (ma : Int) (ax : Vec3)
    (hma : 0 < ma)
    (hidx : ∀ g ∈ fa, ∀ i ∈ g, i < (h.readD struct_ref).sites.length) :
    (rotate_a_cation o h struct_ref fa ma ax).2 = Except.ok (h.objs.length) := by
  have hlen2 : ((make_rotated_copy o h struct_ref).1.readD
      (make_rotated_copy o h struct_ref).2).sites.length =
      (h.readD struct_ref).sites.length := by
    rw [make_rotated_copy_ref, make_rotated_copy_readD_fresh, perturb_length]
    rfl
  have hrlt : (make_rotated_copy o h struct_ref).2 <
      (make_rotated_copy o h struct_ref).1.objs.length := by
    rw [make_rotated_copy_ref, make_rotated_copy_len]
    omega
  obtain ⟨h3, hloop⟩ := rotate_loop_ok o ma ax hma fa 0
    (make_rotated_copy o h struct_ref).1 (make_rotated_copy o h struct_ref).2 hrlt
    (by intro g hg i hi
        rw [hlen2]
        exact hidx g hg i hi)
  unfold rotate_a_cation
  rw [hloop]
  exact congrArg Except.ok (make_rotated_copy_ref o h struct_ref)

/-- Witness for C7: a positive maximum angle and two in-range groups
complete and return the fresh reference. -/
theorem c7_witness :
    (0 : Int) < 180 ∧
    (∀ g ∈ [[0], [0, 1, 2]], ∀ i ∈ g, i < (h_one.readD 0).sites.length) ∧
    (rotate_a_cation o_id h_one 0 [[0], [0, 1, 2]] 180 (0, 1, 0)).2 =
      Except.ok h_one.objs.length :=
  ⟨by decide, by decide,
    c7_in_range_groups_complete o_id h_one 0 [[0], [0, 1, 2]] 180 (0, 1, 0)
      (by decide) (by decide)⟩

/-! ## The A-cation locator assertion -/

/-- A nonempty list of equal elements dedups to a singleton. -/
theorem dedup_eq_single (c : Nat) :
    ∀ l : List Nat, l ≠ [] → (∀ x ∈ l, x = c) → l.dedup = [c] := by
  intro l
  induction l with
  | nil => intro h; cases h rfl
  | cons x xs ih =>
    intro _ hall
    have hx : x = c := hall x (by simp)
    by_cases hxs : xs = []
    · subst hxs
      subst hx
      simp
    · have hd : xs.dedup = [c] := ih hxs (fun y hy => hall y (by simp [hy]))
      obtain ⟨y, hy⟩ := List.exists_mem_of_ne_nil xs hxs
      have hmem : c ∈ xs := by
        rw [← hall y (by simp [hy])]
        exact hy
      subst hx
      rw [List.dedup_cons_of_mem hmem]
      exact hd

/-- A list whose dedup is a singleton has all-equal elements. -/
theorem all_eq_of_dedup_len_one (l : List Nat) (hlen : l.dedup.length = 1) :
    ∀ x ∈ l, ∀ y ∈ l, x = y := by
  intro x hx y hy
  obtain ⟨c, hc⟩ := List.length_eq_one.mp hlen
  have hx2 : x ∈ l.dedup := List.mem_dedup.mpr hx
  have hy2 : y ∈ l.dedup := List.mem_dedup.mpr hy
  rw [hc] at hx2 hy2
  simp at hx2 hy2
  rw [hx2, hy2]

/-- C8 counterexample: on a structure with no marker site all (zero) groups
vacuously have equal length, yet the call raises the assertion instead of
returning the (empty) group list. -/
theorem c8_counterexample :
    (∀ a ∈ fa_molecules_of s_no_b gn_empty "C" 2,
      ∀ b ∈ fa_molecules_of s_no_b gn_empty "C" 2, a.length = b.length) ∧
    get_a_cation_sites s_no_b gn_empty "C" 2 = Except.error assertion_error_msg := by
  constructor
  · intro a ha
    have hnil : fa_molecules_of s_no_b gn_empty "C" 2 = [] := rfl
    rw [hnil] at ha
    exact absurd ha (List.not_mem_nil a)
  · rfl

/-- C8 amended: when the produced groups do not all have equal length the
call raises the assertion; when there is AT LEAST ONE group and all groups
have equal length it returns the groups (marker index followed by the
neighbor indices, in structure order); with zero marker sites the assertion
also fires (see the counterexample and C10). -/
theorem c8_assert_equal_lengths (s : Structure) (gN : Nat → Rat → List Nat)
    (sp : String) (r : Rat) :
    (¬ (∀ a ∈ fa_molecules_of s gN sp r, ∀ b ∈ fa_molecules_of s gN sp r,
        a.length = b.length) →
      get_a_cation_sites s gN sp r = Except.error assertion_error_msg) ∧
    (fa_molecules_of s gN sp r ≠ [] →
      (∀ a ∈ fa_molecules_of s gN sp r, ∀ b ∈ fa_molecules_of s gN sp r,
        a.length = b.length) →
      get_a_cation_sites s gN sp r = Except.ok (fa_molecules_of s gN sp r)) := by
  constructor
  · intro hne
    have hc : ¬ ((fa_molecules_of s gN sp r).map List.length).dedup.length = 1 := by
      intro hlen
      exact hne (fun a ha b hb => all_eq_of_dedup_len_one _ hlen a.length
        (List.mem_map_of_mem List.length ha) b.length
        (List.mem_map_of_mem List.length hb))
    unfold get_a_cation_sites
    rw [if_neg hc]
  · intro hnil hall
    obtain ⟨a, ha⟩ := List.exists_mem_of_ne_nil _ hnil
    have hmapnil : (fa_molecules_of s gN sp r).map List.length ≠ [] := by
      simpa using hnil
    have hdedup : ((fa_molecules_of s gN sp r).map List.length).dedup = [a.length] := by
      apply dedup_eq_single a.length _ hmapnil
      intro x hx
      obtain ⟨b, hb, hbx⟩ := List.mem_map.mp hx
      rw [← hbx]
      exact hall b hb a ha
    have hc : ((fa_molecules_of s gN sp r).map List.length).dedup.length = 1 := by
      rw [hdedup]
      rfl
    unfold get_a_cation_sites
    rw [if_pos hc]

/-- Witness for C8: one marker carbon with four neighbors gives one
five-element group, returned as such. -/
theorem c8_witness :
    fa_molecules_of s_one_c gn_four "C" 2 = [[0, 1, 2, 3, 4]] ∧
    get_a_cation_sites s_one_c gn_four "C" 2 = Except.ok [[0, 1, 2, 3, 4]] := by
  refine ⟨rfl, ?_⟩
  exact (c8_assert_equal_lengths s_one_c gn_four "C" 2).2 (by decide) (by decide)

/-- C10: with zero sites of the marker species the group list is empty, its
length multiset is empty, `len(set([])) == 1` fails, and the call raises
the assertion instead of returning `[]`. -/
theorem c10_no_marker_raises (s : Structure) (gN : Nat → Rat → List Nat)
    (sp : String) (r : Rat)
    (h : ∀ st ∈ s.sites, st.species ≠ sp) :
    get_a_cation_sites s gN sp r = Except.error assertion_error_msg := by
  have hfa : fa_molecules_of s gN sp r = [] := by
    unfold fa_molecules_of
    rw [List.filter_eq_nil_iff.mpr, List.map_nil]
    intro q hq
    simp only [decide_eq_true_eq]
    exact h q.2 (List.snd_mem_of_mem_enum hq)
  unfold get_a_cation_sites
  rw [hfa]
  rfl

/-- Witness for C10: the marker-free structure raises the assertion. -/
theorem c10_witness :
    (∀ st ∈ s_no_b.sites, st.species ≠ "C") ∧
    get_a_cation_sites s_no_b gn_empty "C" 2 = Except.error assertion_error_msg :=
  ⟨by decide, c10_no_marker_raises s_no_b gn_empty "C" 2 (by decide)⟩
